import Mathlib

/-!
Shallow embedding of the Akumuli block-storage layer
(`src/libakumuli/storage_engine/blockstore.cpp`): the `BlockStore` ring of
volumes, its addressing helpers, and the `Block` value type.  The external
collaborators `Volume` and `MetaVolume` are not part of the translated file;
they are modelled from the interface contract of the spec (§1, §6), with explicit
fault-injection fields so that theorems can quantify over collaborator
failures.  Machine integers are modelled as `Nat` with explicit `% 2^32`
truncation where the C code performs 32-bit arithmetic.
-/

namespace Akumuli

/-- `aku_Status` codes used by blockstore.cpp: `AKU_SUCCESS`, `AKU_EOVERFLOW`,
`AKU_EBAD_ARG`, and a generic constructor for every other status code. -/
inductive Status where
  | success
  | eoverflow
  | ebadarg
  | err (code : Nat)
  deriving DecidableEq, Repr

/-- Modelled from the spec: the process-wide fixed block size constant
(`AKU_BLOCK_SIZE`), defined outside the translated file; §6 "Fixed block
size: a single process-wide constant". -/
def AKU_BLOCK_SIZE : Nat := 4096

/-- 2^32, the modulus of `uint32_t` arithmetic. -/
def U32 : Nat := 2 ^ 32

/-- `Block`: the immutable result of a successful read, pairing a logical
address with its byte payload (blockstore.cpp lines 9-22).  The non-owning
back-reference to the store carries no data and is omitted. -/
structure Block where
  addr_ : Nat
  data_ : List Nat
  deriving DecidableEq, Repr

/-- `Block::get_data` (line 16). -/
def Block.get_data (b : Block) : List Nat := b.data_

/-- `Block::get_size` (line 20): size of the payload vector. -/
def Block.get_size (b : Block) : Nat := b.data_.length

/-- Modelled from the spec: the external `Volume` collaborator (§1, §6): a
fixed-capacity, append-only sequence of fixed-size blocks with
`read_block(offset) -> bytes | error`, `append_block(bytes) -> offset |
OVERFLOW | error`, `reset()`, `flush()`, `get_size() -> capacity`.
`readErr`/`appendErr` inject possible collaborator failures;
`flushCount` records issued flushes. -/
structure Volume where
  capacity : Nat
  blocks : List (List Nat)
  readErr : Nat → Option Status
  appendErr : Option Status
  flushCount : Nat
  deriving Inhabited

/-- Modelled from the spec: `Volume::get_size` returns the capacity in blocks. -/
def Volume.get_size (v : Volume) : Nat := v.capacity

/-- Modelled from the spec: `Volume::append_block` returns the new offset,
`AKU_EOVERFLOW` when the volume is full, or an injected I/O failure. -/
def Volume.append_block (v : Volume) (data : List Nat) : Status × Nat × Volume :=
  match v.appendErr with
  | some s => (s, 0, v)
  | none =>
    if v.capacity ≤ v.blocks.length then
      (Status.eoverflow, 0, v)
    else
      (Status.success, v.blocks.length, { v with blocks := v.blocks ++ [data] })

/-- Modelled from the spec: `Volume::read_block` returns the bytes stored at
`offset`, or an injected I/O failure. -/
def Volume.read_block (v : Volume) (off : Nat) : Status × List Nat :=
  match v.readErr off with
  | some s => (s, [])
  | none =>
    match v.blocks.get? off with
    | some b => (Status.success, b)
    | none => (Status.ebadarg, [])

/-- Modelled from the spec: `Volume::reset` clears the write cursor to 0,
invalidating prior offsets. -/
def Volume.reset (v : Volume) : Volume := { v with blocks := [] }

/-- Modelled from the spec: `Volume::flush`. -/
def Volume.flush (v : Volume) : Volume := { v with flushCount := v.flushCount + 1 }

/-- Modelled from the spec: the external `MetaVolume` collaborator (§1, §6):
one persistent `(generation, block_count)` pair per volume slot, with
`get_generation`, `set_generation`, `get_nblocks`, `set_nblocks`, `flush`.
The `*Err` fields inject possible collaborator failures per slot. -/
structure MetaVolume where
  slots : List (Nat × Nat)
  getGenErr : Nat → Option Status
  getNblocksErr : Nat → Option Status
  setGenErr : Nat → Option Status
  setNblocksErr : Nat → Option Status
  flushCount : Nat
  deriving Inhabited

/-- Modelled from the spec: `MetaVolume::get_generation(slot)`. -/
def MetaVolume.get_generation (m : MetaVolume) (ix : Nat) : Status × Nat :=
  match m.getGenErr ix with
  | some s => (s, 0)
  | none =>
    match m.slots.get? ix with
    | some sl => (Status.success, sl.fst)
    | none => (Status.ebadarg, 0)

/-- Modelled from the spec: `MetaVolume::get_nblocks(slot)`. -/
def MetaVolume.get_nblocks (m : MetaVolume) (ix : Nat) : Status × Nat :=
  match m.getNblocksErr ix with
  | some s => (s, 0)
  | none =>
    match m.slots.get? ix with
    | some sl => (Status.success, sl.snd)
    | none => (Status.ebadarg, 0)

/-- Modelled from the spec: `MetaVolume::set_generation(slot, gen)`. -/
def MetaVolume.set_generation (m : MetaVolume) (ix gen : Nat) : Status × MetaVolume :=
  match m.setGenErr ix with
  | some s => (s, m)
  | none =>
    match m.slots.get? ix with
    | some sl => (Status.success, { m with slots := m.slots.set ix (gen, sl.snd) })
    | none => (Status.ebadarg, m)

/-- Modelled from the spec: `MetaVolume::set_nblocks(slot, n)`. -/
def MetaVolume.set_nblocks (m : MetaVolume) (ix n : Nat) : Status × MetaVolume :=
  match m.setNblocksErr ix with
  | some s => (s, m)
  | none =>
    match m.slots.get? ix with
    | some sl => (Status.success, { m with slots := m.slots.set ix (sl.fst, n) })
    | none => (Status.ebadarg, m)

/-- Modelled from the spec: `MetaVolume::flush`. -/
def MetaVolume.flush (m : MetaVolume) : MetaVolume := { m with flushCount := m.flushCount + 1 }

/-- `extract_gen` (blockstore.cpp line 77): `addr >> 32`, truncated to
`uint32_t` at the return. -/
def extract_gen (addr : Nat) : Nat := addr / U32 % U32

/-- `extract_vol` (line 81): `addr & 0xFFFFFFFF`, i.e. the low 32 bits. -/
def extract_vol (addr : Nat) : Nat := addr % U32

/-- `make_logic` (line 85): `uint64(gen) << 32 | addr`.  Both arguments are
`uint32_t`, so the shifted generation and the offset occupy disjoint bit
ranges and the bitwise-or equals the sum. -/
def make_logic (gen addr : Nat) : Nat := gen % U32 * U32 + addr % U32

/-- `BlockStore` process state (blockstore.h fields used by blockstore.cpp):
the MetaVolume handle, the ordered volumes, the per-volume dirty counters,
and the current volume index / cached generation. -/
structure BlockStore where
  meta : MetaVolume
  volumes : List Volume
  dirty : List Nat
  current_volume : Nat
  current_gen : Nat
  deriving Inhabited

/-- `BlockStore::exists` (lines 89-105): best-effort predicate, never an
error; false on any MetaVolume lookup failure. -/
def BlockStore.exists (bs : BlockStore) (addr : Nat) : Bool :=
  let gen := extract_gen addr
  let vol := extract_vol addr
  let volix := gen % bs.volumes.length
  let r1 := bs.meta.get_generation volix
  if r1.fst ≠ Status.success then
    false
  else
    let r2 := bs.meta.get_nblocks volix
    if r2.fst ≠ Status.success then
      false
    else
      r1.snd == gen && decide (vol < r2.snd)

/-- `BlockStore::read_block` (lines 107-133): resolve the address against
MetaVolume, then delegate to the Volume; the destination buffer is allocated
at `AKU_BLOCK_SIZE` before the Volume read fills it. -/
def BlockStore.read_block (bs : BlockStore) (addr : Nat) : Status × Option Block :=
  let gen := extract_gen addr
  let vol := extract_vol addr
  let volix := gen % bs.volumes.length
  let r1 := bs.meta.get_generation volix
  if r1.fst ≠ Status.success then
    (Status.ebadarg, none)
  else
    let r2 := bs.meta.get_nblocks volix
    if r2.fst ≠ Status.success then
      (Status.ebadarg, none)
    else if r1.snd ≠ gen ∨ r2.snd ≤ vol then
      (Status.ebadarg, none)
    else
      let rv := (bs.volumes.getD volix default).read_block vol
      if rv.fst ≠ Status.success then
        (rv.fst, none)
      else
        (rv.fst, some { addr_ := addr, data_ := (rv.snd).takeD AKU_BLOCK_SIZE 0 })

/-- `BlockStore::advance_volume` (lines 135-167).  `AKU_PANIC` is modelled as
`Except.error` with the panic message.  `current_gen_ += volumes_.size()` is
`uint32_t` arithmetic, hence the `% U32`. -/
def BlockStore.advance_volume (bs : BlockStore) : Except String BlockStore :=
  let cv := (bs.current_volume + 1) % bs.volumes.length
  let r1 := bs.meta.get_generation cv
  if r1.fst ≠ Status.success then
    Except.error "Cannot read generation of the next volume"
  else
    let r2 := bs.meta.get_nblocks cv
    if r2.fst ≠ Status.success then
      Except.error "Cannot read nblocks of the next volume"
    else if r2.snd ≠ 0 then
      let gen2 := (r1.snd + bs.volumes.length) % U32
      let w1 := bs.meta.set_generation cv gen2
      if w1.fst ≠ Status.success then
        Except.error "Invalid BlockStore state, cannot reset volume generation"
      else
        let w2 := (w1.snd).set_nblocks cv 0
        if w2.fst ≠ Status.success then
          Except.error "Invalid BlockStore state, cannot reset volume nblocks"
        else
          Except.ok { bs with
            meta := w2.snd
            volumes := bs.volumes.set cv ((bs.volumes.getD cv default).reset)
            dirty := bs.dirty.set cv (bs.dirty.getD cv 0 + 1)
            current_volume := cv
            current_gen := gen2 }
    else
      Except.ok { bs with current_volume := cv, current_gen := r1.snd }

/-- `BlockStore::append_block` (lines 169-188).  On `AKU_EOVERFLOW` the store
rotates and retries exactly once; any other first-attempt status falls
through to the `set_nblocks` metadata commit, whose status is what is
returned.  `AKU_PANIC` on a failed metadata commit is `Except.error`. -/
def BlockStore.append_block (bs : BlockStore) (data : List Nat) :
    Except String (Status × Nat × BlockStore) :=
  let ra := (bs.volumes.getD bs.current_volume default).append_block data
  let bs1 := { bs with volumes := bs.volumes.set bs.current_volume ra.snd.snd }
  if ra.fst = Status.eoverflow then
    match bs1.advance_volume with
    | Except.error msg => Except.error msg
    | Except.ok bs2 =>
      let rb := (bs2.volumes.getD bs2.current_volume default).append_block data
      let bs3 := { bs2 with volumes := bs2.volumes.set bs2.current_volume rb.snd.snd }
      if rb.fst ≠ Status.success then
        Except.ok (rb.fst, 0, bs3)
      else
        Except.ok (rb.fst, make_logic bs3.current_gen rb.snd.fst, bs3)
  else
    let w := bs1.meta.set_nblocks bs1.current_volume (ra.snd.fst + 1)
    if w.fst ≠ Status.success then
      Except.error "Invalid BlockStore state"
    else
      let bs4 := { bs1 with
        meta := w.snd
        dirty := bs1.dirty.set bs1.current_volume (bs1.dirty.getD bs1.current_volume 0 + 1) }
      Except.ok (w.fst, make_logic bs4.current_gen ra.snd.fst, bs4)

/-- `BlockStore::flush` (lines 190-198): flush each volume whose dirty
counter is nonzero and clear that counter, then flush the MetaVolume
unconditionally.  The index loop over the paired vectors is rendered as a
`zip`/`map` over the pairs. -/
def BlockStore.flush (bs : BlockStore) : BlockStore :=
  { bs with
    volumes := (bs.volumes.zip bs.dirty).map (fun p => if p.snd ≠ 0 then p.fst.flush else p.fst)
    dirty := bs.dirty.map (fun d => if d ≠ 0 then 0 else d)
    meta := bs.meta.flush }

end Akumuli

namespace Akumuli

/-- No-fault injection: every collaborator call takes the normal path. -/
def noErr : Nat → Option Status := fun _ => none

/-- Example state: two volumes of capacity 2, volume 0 holding one block,
volume 1 empty; MetaVolume slots `[(0,1),(1,0)]`; current volume 0 at
generation 0 (the state `open` selects for this disk content). -/
def exMeta : MetaVolume :=
  { slots := [(0, 1), (1, 0)], getGenErr := noErr, getNblocksErr := noErr,
    setGenErr := noErr, setNblocksErr := noErr, flushCount := 0 }

def exVol0 : Volume :=
  { capacity := 2, blocks := [List.replicate AKU_BLOCK_SIZE 1], readErr := noErr,
    appendErr := none, flushCount := 0 }

def exVol1 : Volume :=
  { capacity := 2, blocks := [], readErr := noErr, appendErr := none, flushCount := 0 }

def exStore : BlockStore :=
  { meta := exMeta, volumes := [exVol0, exVol1], dirty := [0, 0],
    current_volume := 0, current_gen := 0 }

/-- C9: `make_address(g, o) = (g << 32) | o` and both extractions invert it,
wrap-free, for all 32-bit `g`, `o`. -/
theorem make_logic_extract (g o : Nat) (hg : g < U32) (ho : o < U32) :
    make_logic g o = (g <<< 32) ||| o ∧
    extract_gen (make_logic g o) = g ∧
    extract_vol (make_logic g o) = o := by
  have hU : U32 = 2 ^ 32 := rfl
  rw [hU] at hg ho
  refine ⟨?_, ?_, ?_⟩
  · have hm : make_logic g o = 2 ^ 32 * g + o := by
      unfold make_logic
      rw [hU, Nat.mod_eq_of_lt hg, Nat.mod_eq_of_lt ho]
      ring
    rw [hm, Nat.shiftLeft_eq, Nat.mul_comm g (2 ^ 32)]
    exact Nat.mul_add_lt_is_or ho g
  · have h32 : (2 : Nat) ^ 32 = 4294967296 := by norm_num
    unfold extract_gen make_logic
    rw [hU, h32]
    rw [h32] at hg ho
    omega
  · have h32 : (2 : Nat) ^ 32 = 4294967296 := by norm_num
    unfold extract_vol make_logic
    rw [hU, h32]
    rw [h32] at hg ho
    omega

theorem make_logic_extract_witness :
    (5 : Nat) < U32 ∧ (7 : Nat) < U32 ∧ extract_gen (make_logic 5 7) = 5 :=
  ⟨by norm_num [U32], by norm_num [U32],
    (make_logic_extract 5 7 (by norm_num [U32]) (by norm_num [U32])).2.1⟩

/-- C5: `exists` is a total `Bool` predicate (it can signal no error by
type); it is `true` iff both MetaVolume lookups on slot
`generation mod volume_count` succeed, the stored generation equals the
generation of the address, and the offset is below the stored block
count — so it is `false` whenever either lookup fails. -/
theorem exists_iff (bs : BlockStore) (addr : Nat) (hn : 0 < bs.volumes.length) :
    BlockStore.exists bs addr = true ↔
      ((bs.meta.get_generation (extract_gen addr % bs.volumes.length)).fst = Status.success ∧
       (bs.meta.get_nblocks (extract_gen addr % bs.volumes.length)).fst = Status.success ∧
       (bs.meta.get_generation (extract_gen addr % bs.volumes.length)).snd = extract_gen addr ∧
       extract_vol addr < (bs.meta.get_nblocks (extract_gen addr % bs.volumes.length)).snd) := by
  simp only [BlockStore.exists]
  split_ifs with h1 h2
  · simp only [Bool.false_eq_true, false_iff]
    rintro ⟨c1, -⟩
    exact h1 c1
  · simp only [Bool.false_eq_true, false_iff]
    rintro ⟨-, c2, -⟩
    exact h2 c2
  · rw [Bool.and_eq_true, beq_iff_eq, decide_eq_true_eq]
    constructor
    · rintro ⟨ha, hb⟩
      exact ⟨not_ne_iff.mp h1, not_ne_iff.mp h2, ha, hb⟩
    · rintro ⟨-, -, ha, hb⟩
      exact ⟨ha, hb⟩

theorem exists_iff_witness :
    0 < exStore.volumes.length ∧ BlockStore.exists exStore 0 = true :=
  ⟨by decide, (exists_iff exStore 0 (by decide)).mpr (by decide)⟩

/-- C4: `read_block` error mapping — a MetaVolume failure on the generation
or block-count lookup yields `AKU_EBAD_ARG`; a stored-generation mismatch or
`offset >= block_count` yields `AKU_EBAD_ARG`; and when all MetaVolume
checks pass but the Volume read fails, that underlying status is returned
unchanged. -/
theorem read_block_error_mapping (bs : BlockStore) (addr : Nat)
    (hn : 0 < bs.volumes.length) :
    ((bs.meta.get_generation (extract_gen addr % bs.volumes.length)).fst ≠ Status.success →
       bs.read_block addr = (Status.ebadarg, none)) ∧
    ((bs.meta.get_nblocks (extract_gen addr % bs.volumes.length)).fst ≠ Status.success →
       bs.read_block addr = (Status.ebadarg, none)) ∧
    (((bs.meta.get_generation (extract_gen addr % bs.volumes.length)).snd ≠ extract_gen addr ∨
      (bs.meta.get_nblocks (extract_gen addr % bs.volumes.length)).snd ≤ extract_vol addr) →
       bs.read_block addr = (Status.ebadarg, none)) ∧
    (∀ s b,
       (bs.meta.get_generation (extract_gen addr % bs.volumes.length)).fst = Status.success →
       (bs.meta.get_nblocks (extract_gen addr % bs.volumes.length)).fst = Status.success →
       (bs.meta.get_generation (extract_gen addr % bs.volumes.length)).snd = extract_gen addr →
       extract_vol addr < (bs.meta.get_nblocks (extract_gen addr % bs.volumes.length)).snd →
       (bs.volumes.getD (extract_gen addr % bs.volumes.length) default).read_block
           (extract_vol addr) = (s, b) →
       s ≠ Status.success →
       bs.read_block addr = (s, none)) := by
  refine ⟨?_, ?_, ?_, ?_⟩
  · intro h
    simp only [BlockStore.read_block]
    rw [if_pos h]
  · intro h
    by_cases h1 : (bs.meta.get_generation (extract_gen addr % bs.volumes.length)).fst ≠
        Status.success
    · simp only [BlockStore.read_block]
      rw [if_pos h1]
    · simp only [BlockStore.read_block]
      rw [if_neg h1, if_pos h]
  · intro h
    by_cases h1 : (bs.meta.get_generation (extract_gen addr % bs.volumes.length)).fst ≠
        Status.success
    · simp only [BlockStore.read_block]
      rw [if_pos h1]
    · by_cases h2 : (bs.meta.get_nblocks (extract_gen addr % bs.volumes.length)).fst ≠
          Status.success
      · simp only [BlockStore.read_block]
        rw [if_neg h1, if_pos h2]
      · simp only [BlockStore.read_block]
        rw [if_neg h1, if_neg h2, if_pos h]
  · intro s b h1 h2 h3 h4 hv hs
    simp only [BlockStore.read_block]
    rw [if_neg (not_ne_iff.mpr h1), if_neg (not_ne_iff.mpr h2),
      if_neg (not_or.mpr ⟨not_ne_iff.mpr h3, not_le.mpr h4⟩), hv]
    simp [hs]

/-- Example store whose MetaVolume generation lookups always fail. -/
def exMetaBad : MetaVolume :=
  { slots := [(0, 1)], getGenErr := fun _ => some (Status.err 9), getNblocksErr := noErr,
    setGenErr := noErr, setNblocksErr := noErr, flushCount := 0 }

def exStoreBad : BlockStore :=
  { meta := exMetaBad, volumes := [exVol1], dirty := [0],
    current_volume := 0, current_gen := 0 }

theorem read_block_error_mapping_witness :
    0 < exStoreBad.volumes.length ∧ exStoreBad.read_block 0 = (Status.ebadarg, none) :=
  ⟨by decide, (read_block_error_mapping exStoreBad 0 (by decide)).1 (by decide)⟩

end Akumuli

namespace Akumuli

def exD1 : List Nat := List.replicate AKU_BLOCK_SIZE 2
def exD2 : List Nat := List.replicate AKU_BLOCK_SIZE 3

/-- The store after appending `exD1` to `exStore` (fills volume 0). -/
def exStore1 : BlockStore :=
  match exStore.append_block exD1 with
  | Except.ok r => r.snd.snd
  | Except.error _ => default

/-- The store after the next append, which overflows volume 0, rotates to
volume 1 and retries there. -/
def exStore2 : BlockStore :=
  match exStore1.append_block exD2 with
  | Except.ok r => r.snd.snd
  | Except.error _ => default

/-- C1 (failing input): an append that triggers rotation succeeds and
returns address `make_logic 1 0`, but the immediately following
`read_block` of that address returns `AKU_EBAD_ARG` instead of the data:
the retry path never records the new block count in MetaVolume, so the
freshly written block does not resolve. -/
theorem append_rotation_roundtrip_fails :
    exStore.append_block exD1 = Except.ok (Status.success, make_logic 0 1, exStore1) ∧
    exStore1.append_block exD2 = Except.ok (Status.success, make_logic 1 0, exStore2) ∧
    exStore2.read_block (make_logic 1 0) = (Status.ebadarg, none) :=
  ⟨rfl, rfl, rfl⟩

/-- C2 (failing input): on the successful retry after rotation the code
returns `make_address(current_generation, offset)` but updates neither the
MetaVolume block count of the slot (still 0, not `offset + 1 = 1`) nor its dirty
counter (still 0). -/
theorem append_retry_skips_metadata_commit :
    exStore1.append_block exD2 = Except.ok (Status.success, make_logic 1 0, exStore2) ∧
    exStore2.meta.slots.getD 1 (0, 0) = (1, 0) ∧
    exStore2.dirty.getD 1 0 = 0 :=
  ⟨rfl, rfl, rfl⟩

/-- Volume whose next append fails with the non-overflow status `err 5`. -/
def exVolFail : Volume :=
  { capacity := 4, blocks := [], readErr := noErr, appendErr := some (Status.err 5),
    flushCount := 0 }

def exMetaSingle : MetaVolume :=
  { slots := [(0, 0)], getGenErr := noErr, getNblocksErr := noErr,
    setGenErr := noErr, setNblocksErr := noErr, flushCount := 0 }

def exStoreFail : BlockStore :=
  { meta := exMetaSingle, volumes := [exVolFail], dirty := [0],
    current_volume := 0, current_gen := 0 }

def exStoreFail1 : BlockStore :=
  match exStoreFail.append_block exD1 with
  | Except.ok r => r.snd.snd
  | Except.error _ => default

/-- C3 (failing input): when the first append attempt fails with the
non-overflow status `err 5`, the store does not rotate (that part of the
claim holds) but it does not return `err 5` either: control falls through
to the metadata commit, `set_nblocks(0 + 1)` succeeds, the block
count becomes 1 for a block that was never written, the dirty counter is
bumped, and `AKU_SUCCESS` is returned with a bogus address. -/
theorem append_nonoverflow_failure_lost :
    Status.err 5 ≠ Status.success ∧
    exStoreFail.append_block exD1 =
      Except.ok (Status.success, make_logic 0 0, exStoreFail1) ∧
    exStoreFail1.current_volume = exStoreFail.current_volume ∧
    exStoreFail1.current_gen = exStoreFail.current_gen ∧
    exStoreFail1.meta.slots.getD 0 (0, 0) = (0, 1) ∧
    exStoreFail1.dirty.getD 0 0 = 1 :=
  ⟨by decide, rfl, rfl, rfl, rfl, rfl⟩

/-- C10: a successful `read_block` returns a `Block` that stores exactly the
requested address, and whose size is the fixed block size — the payload
buffer is allocated at `AKU_BLOCK_SIZE` zeros before the Volume read fills
it. -/
theorem read_block_block_shape (bs : BlockStore) (addr : Nat) (s : Status) (b : Block)
    (h : bs.read_block addr = (s, some b)) :
    b.addr_ = addr ∧ b.get_size = AKU_BLOCK_SIZE := by
  simp only [BlockStore.read_block] at h
  split_ifs at h with h1 h2 h3 h4
  · exact absurd h (by simp)
  · exact absurd h (by simp)
  · exact absurd h (by simp)
  · exact absurd h (by simp)
  · simp only [Prod.mk.injEq, Option.some.injEq] at h
    obtain ⟨-, hb⟩ := h
    subst hb
    exact ⟨rfl, List.takeD_length _ _ _⟩

theorem read_block_block_shape_witness :
    exStore.read_block 0 =
      (Status.success,
        some { addr_ := 0,
               data_ := (List.replicate AKU_BLOCK_SIZE 1).takeD AKU_BLOCK_SIZE 0 }) ∧
    (Block.mk 0 ((List.replicate AKU_BLOCK_SIZE 1).takeD AKU_BLOCK_SIZE 0)).get_size =
      AKU_BLOCK_SIZE :=
  ⟨rfl,
    (read_block_block_shape exStore 0 Status.success
      (Block.mk 0 ((List.replicate AKU_BLOCK_SIZE 1).takeD AKU_BLOCK_SIZE 0)) rfl).2⟩

end Akumuli

namespace Akumuli

/-- C6: `advance_volume` moves `current_volume` to `(current_volume + 1) mod
volume_count`; when the stored block count of the slot is nonzero it advances the
generation read from that slot by `volume_count` (32-bit arithmetic),
persists the new generation and a zero block count, resets the physical
physical Volume and increments its dirty counter; when the block count is
zero the slot metadata, Volume and dirty counter are left unchanged. -/
theorem advance_volume_spec (bs bs' : BlockStore) (cv g nb : Nat)
    (hcv : cv = (bs.current_volume + 1) % bs.volumes.length)
    (hn : 0 < bs.volumes.length)
    (hd : bs.dirty.length = bs.volumes.length)
    (hslot : bs.meta.slots[cv]? = some (g, nb))
    (e1 : bs.meta.getGenErr cv = none)
    (e2 : bs.meta.getNblocksErr cv = none)
    (e3 : bs.meta.setGenErr cv = none)
    (e4 : bs.meta.setNblocksErr cv = none)
    (hok : bs.advance_volume = Except.ok bs') :
    bs'.current_volume = cv ∧
    (nb ≠ 0 →
      bs'.current_gen = (g + bs.volumes.length) % U32 ∧
      bs'.meta.slots[cv]? = some ((g + bs.volumes.length) % U32, 0) ∧
      bs'.volumes[cv]? = some ((bs.volumes.getD cv default).reset) ∧
      bs'.dirty[cv]? = some (bs.dirty.getD cv 0 + 1)) ∧
    (nb = 0 →
      bs'.current_gen = g ∧ bs'.meta = bs.meta ∧ bs'.volumes = bs.volumes ∧
      bs'.dirty = bs.dirty) := by
  have hcvlt : cv < bs.volumes.length := hcv ▸ Nat.mod_lt _ hn
  have hslt : cv < bs.meta.slots.length := by
    by_contra hc
    rw [List.getElem?_eq_none (Nat.le_of_not_lt hc)] at hslot
    cases hslot
  have hg : bs.meta.get_generation cv = (Status.success, g) := by
    simp [MetaVolume.get_generation, e1, hslot]
  have hnb : bs.meta.get_nblocks cv = (Status.success, nb) := by
    simp [MetaVolume.get_nblocks, e2, hslot]
  by_cases h0 : nb = 0
  · subst h0
    simp only [BlockStore.advance_volume] at hok
    rw [← hcv] at hok
    rw [hg, hnb] at hok
    simp only [ne_eq, not_true_eq_false, if_false, if_neg, not_false_eq_true,
      reduceIte] at hok
    rw [Except.ok.injEq] at hok
    subst hok
    refine ⟨rfl, ?_, ?_⟩
    · intro h
      exact absurd rfl h
    · intro _
      exact ⟨rfl, rfl, rfl, rfl⟩
  · have hsg : bs.meta.set_generation cv ((g + bs.volumes.length) % U32) =
        (Status.success,
          { bs.meta with
            slots := bs.meta.slots.set cv ((g + bs.volumes.length) % U32, nb) }) := by
      simp [MetaVolume.set_generation, e3, hslot]
    have hsn : ({ bs.meta with
            slots := bs.meta.slots.set cv ((g + bs.volumes.length) % U32, nb) } :
          MetaVolume).set_nblocks cv 0 =
        (Status.success,
          { bs.meta with
            slots := bs.meta.slots.set cv ((g + bs.volumes.length) % U32, 0) }) := by
      simp [MetaVolume.set_nblocks, e4, List.getElem?_set_self hslt, List.set_set]
    simp only [BlockStore.advance_volume] at hok
    rw [← hcv] at hok
    rw [hg, hnb] at hok
    simp only [ne_eq, not_true_eq_false, if_false, not_false_eq_true, reduceIte,
      h0] at hok
    rw [hsg] at hok
    simp only [ne_eq, not_true_eq_false, if_false, not_false_eq_true, reduceIte] at hok
    rw [hsn] at hok
    simp only [ne_eq, not_true_eq_false, if_false, not_false_eq_true, reduceIte] at hok
    rw [Except.ok.injEq] at hok
    subst hok
    refine ⟨rfl, ?_, fun h => absurd h h0⟩
    intro _
    refine ⟨rfl, ?_, ?_, ?_⟩
    · exact List.getElem?_set_self hslt
    · exact List.getElem?_set_self hcvlt
    · exact List.getElem?_set_self (hd ▸ hcvlt)

/-- MetaVolume with every slot full, used to exercise the rotation reset. -/
def exMetaFull : MetaVolume :=
  { slots := [(0, 2), (1, 2)], getGenErr := noErr, getNblocksErr := noErr,
    setGenErr := noErr, setNblocksErr := noErr, flushCount := 0 }

def exVolFull : Volume :=
  { capacity := 2, blocks := [exD1, exD2], readErr := noErr, appendErr := none,
    flushCount := 0 }

def exStoreFull : BlockStore :=
  { meta := exMetaFull, volumes := [exVolFull, exVolFull], dirty := [0, 0],
    current_volume := 1, current_gen := 1 }

def exStoreAdv : BlockStore :=
  match exStoreFull.advance_volume with
  | Except.ok r => r
  | Except.error _ => default

theorem advance_volume_spec_witness :
    exStoreAdv.current_volume = 0 ∧ exStoreAdv.meta.slots[0]? = some (2, 0) :=
  ⟨(advance_volume_spec exStoreFull exStoreAdv 0 0 2 rfl (by decide) rfl rfl rfl rfl
      rfl rfl rfl).1,
   ((advance_volume_spec exStoreFull exStoreAdv 0 0 2 rfl (by decide) rfl rfl rfl rfl
      rfl rfl rfl).2.1 (by decide)).2.1⟩

end Akumuli

namespace Akumuli

/-- C7: once `advance_volume` resets a slot, every address carrying the
prior generation of a reset slot stops existing and reads as `AKU_EBAD_ARG`: the
reset persists a zero block count (with the generation advanced by
`volume_count`), so no offset satisfies `offset < block_count`. -/
theorem stale_after_reset (bs bs' : BlockStore) (cv g nb addr : Nat)
    (hcv : cv = (bs.current_volume + 1) % bs.volumes.length)
    (hn : 0 < bs.volumes.length)
    (hslot : bs.meta.slots[cv]? = some (g, nb))
    (hnb0 : nb ≠ 0)
    (e1 : bs.meta.getGenErr cv = none)
    (e2 : bs.meta.getNblocksErr cv = none)
    (e3 : bs.meta.setGenErr cv = none)
    (e4 : bs.meta.setNblocksErr cv = none)
    (hgen : extract_gen addr = g)
    (hmod : g % bs.volumes.length = cv)
    (hok : bs.advance_volume = Except.ok bs') :
    BlockStore.exists bs' addr = false ∧ bs'.read_block addr = (Status.ebadarg, none) := by
  have hcvlt : cv < bs.volumes.length := hcv ▸ Nat.mod_lt _ hn
  have hslt : cv < bs.meta.slots.length := by
    by_contra hc
    rw [List.getElem?_eq_none (Nat.le_of_not_lt hc)] at hslot
    cases hslot
  have hg : bs.meta.get_generation cv = (Status.success, g) := by
    simp [MetaVolume.get_generation, e1, hslot]
  have hnb : bs.meta.get_nblocks cv = (Status.success, nb) := by
    simp [MetaVolume.get_nblocks, e2, hslot]
  have hsg : bs.meta.set_generation cv ((g + bs.volumes.length) % U32) =
      (Status.success,
        { bs.meta with
          slots := bs.meta.slots.set cv ((g + bs.volumes.length) % U32, nb) }) := by
    simp [MetaVolume.set_generation, e3, hslot]
  have hsn : ({ bs.meta with
          slots := bs.meta.slots.set cv ((g + bs.volumes.length) % U32, nb) } :
        MetaVolume).set_nblocks cv 0 =
      (Status.success,
        { bs.meta with
          slots := bs.meta.slots.set cv ((g + bs.volumes.length) % U32, 0) }) := by
    simp [MetaVolume.set_nblocks, e4, List.getElem?_set_self hslt, List.set_set]
  simp only [BlockStore.advance_volume] at hok
  rw [← hcv] at hok
  rw [hg, hnb] at hok
  simp only [ne_eq, not_true_eq_false, if_false, not_false_eq_true, reduceIte,
    hnb0] at hok
  rw [hsg] at hok
  simp only [ne_eq, not_true_eq_false, if_false, not_false_eq_true, reduceIte] at hok
  rw [hsn] at hok
  simp only [ne_eq, not_true_eq_false, if_false, not_false_eq_true, reduceIte] at hok
  rw [Except.ok.injEq] at hok
  subst hok
  constructor
  · simp only [BlockStore.exists, List.length_set, hgen, hmod,
      MetaVolume.get_generation, MetaVolume.get_nblocks, e1, e2]
    simp [List.getElem?_set_self hslt]
  · simp only [BlockStore.read_block, List.length_set, hgen, hmod,
      MetaVolume.get_generation, MetaVolume.get_nblocks, e1, e2]
    simp [List.getElem?_set_self hslt]

theorem stale_after_reset_witness :
    BlockStore.exists exStoreAdv 0 = false ∧
    exStoreAdv.read_block 0 = (Status.ebadarg, none) :=
  stale_after_reset exStoreFull exStoreAdv 0 0 2 0 rfl (by decide) rfl (by decide)
    rfl rfl rfl rfl (by decide) (by decide) rfl

end Akumuli

namespace Akumuli

/-- Pointwise view of the flush loop over the paired volume/dirty vectors. -/
theorem flush_zip_get (f : Volume × Nat → Volume) :
    ∀ (xs : List Volume) (ys : List Nat) (ix : Nat), ix < xs.length → ix < ys.length →
      ((xs.zip ys).map f)[ix]? = some (f (xs.getD ix default, ys.getD ix 0)) := by
  intro xs
  induction xs with
  | nil =>
    intro ys ix h _
    simp at h
  | cons x xs ih =>
    intro ys ix h1 h2
    cases ys with
    | nil => simp at h2
    | cons y ys =>
      cases ix with
      | zero => simp
      | succ n =>
        simpa using ih ys n (Nat.lt_of_succ_lt_succ h1) (Nat.lt_of_succ_lt_succ h2)

/-- Every entry of the cleared dirty vector is zero. -/
theorem cleared_dirty_getD (ys : List Nat) :
    ∀ ix, (ys.map (fun d => if d ≠ 0 then 0 else d)).getD ix 0 = 0 := by
  induction ys with
  | nil => intro ix; simp
  | cons y ys ih =>
    intro ix
    cases ix with
    | zero => by_cases h : y = 0 <;> simp [h]
    | succ n => simpa using ih n

theorem cleared_dirty_mem (ys : List Nat) :
    ∀ y ∈ ys.map (fun d => if d ≠ 0 then 0 else d), y = 0 := by
  intro y hy
  obtain ⟨d, -, rfl⟩ := List.mem_map.mp hy
  by_cases h : d = 0 <;> simp [h]

/-- Flushing against an all-zero dirty vector touches no volume. -/
theorem zip_map_flush_all_zero :
    ∀ (xs : List Volume) (ys : List Nat), (∀ y ∈ ys, y = 0) → ys.length = xs.length →
      (xs.zip ys).map (fun p => if p.snd ≠ 0 then p.fst.flush else p.fst) = xs := by
  intro xs
  induction xs with
  | nil =>
    intro ys _ _
    simp
  | cons x xs ih =>
    intro ys hz hl
    cases ys with
    | nil => simp at hl
    | cons y ys =>
      have hy : y = 0 := hz y (by simp)
      subst hy
      have ht := ih ys (fun a ha => hz a (List.mem_cons_of_mem _ ha)) (Nat.succ.inj hl)
      simp only [List.zip_cons_cons, List.map_cons, ht]
      simp

/-- Clearing an all-zero dirty vector changes nothing. -/
theorem map_clear_all_zero (ys : List Nat) (h : ∀ y ∈ ys, y = 0) :
    ys.map (fun d => if d ≠ 0 then 0 else d) = ys := by
  induction ys with
  | nil => rfl
  | cons y ys ih =>
    have hy : y = 0 := h y (by simp)
    subst hy
    simp only [List.map_cons, ih (fun a ha => h a (List.mem_cons_of_mem _ ha))]
    simp

/-- C8: `flush` issues a Volume flush exactly for the slots whose dirty
counter is nonzero (leaving payloads untouched), zeroes every dirty counter,
and flushes the MetaVolume unconditionally; a second `flush` with no
intervening mutation therefore issues no Volume flush and leaves volumes,
dirty counters and stored metadata slots unchanged. -/
theorem flush_spec (bs : BlockStore) (hd : bs.dirty.length = bs.volumes.length) :
    (∀ ix, ix < bs.volumes.length →
      (bs.flush.volumes.getD ix default).flushCount =
        (bs.volumes.getD ix default).flushCount +
          (if bs.dirty.getD ix 0 ≠ 0 then 1 else 0) ∧
      (bs.flush.volumes.getD ix default).blocks = (bs.volumes.getD ix default).blocks) ∧
    (∀ ix, bs.flush.dirty.getD ix 0 = 0) ∧
    bs.flush.meta.flushCount = bs.meta.flushCount + 1 ∧
    bs.flush.meta.slots = bs.meta.slots ∧
    bs.flush.flush.volumes = bs.flush.volumes ∧
    bs.flush.flush.dirty = bs.flush.dirty ∧
    bs.flush.flush.meta.slots = bs.flush.meta.slots := by
  have hzero := cleared_dirty_mem bs.dirty
  have hlen2 : (bs.dirty.map (fun d => if d ≠ 0 then 0 else d)).length =
      ((bs.volumes.zip bs.dirty).map
        (fun p => if p.snd ≠ 0 then p.fst.flush else p.fst)).length := by
    simp [hd]
  refine ⟨?_, ?_, rfl, rfl, ?_, ?_, rfl⟩
  · intro ix hix
    have h1 := flush_zip_get (fun p => if p.snd ≠ 0 then p.fst.flush else p.fst)
      bs.volumes bs.dirty ix hix (hd ▸ hix)
    have hv : bs.flush.volumes.getD ix default =
        (if bs.dirty.getD ix 0 ≠ 0 then (bs.volumes.getD ix default).flush
         else bs.volumes.getD ix default) := by
      simp only [BlockStore.flush]
      rw [List.getD_eq_getElem?_getD, h1]
      rfl
    rw [hv]
    by_cases hz : bs.dirty.getD ix 0 = 0
    · rw [if_neg (not_ne_iff.mpr hz), if_neg (not_ne_iff.mpr hz)]
      exact ⟨(Nat.add_zero _).symm, rfl⟩
    · rw [if_pos hz, if_pos hz]
      exact ⟨rfl, rfl⟩
  · intro ix
    simp only [BlockStore.flush]
    exact cleared_dirty_getD bs.dirty ix
  · simp only [BlockStore.flush]
    exact zip_map_flush_all_zero _ _ hzero hlen2
  · simp only [BlockStore.flush]
    exact map_clear_all_zero _ hzero

theorem flush_spec_witness :
    exStore.dirty.length = exStore.volumes.length ∧
    exStore.flush.flush.dirty = exStore.flush.dirty :=
  ⟨rfl, (flush_spec exStore rfl).2.2.2.2.2.1⟩

end Akumuli

namespace Akumuli

/-- A list of exactly the block size passes through `takeD` unchanged. -/
theorem takeD_self (l : List Nat) (h : l.length = AKU_BLOCK_SIZE) :
    List.takeD AKU_BLOCK_SIZE l 0 = l := by
  rw [← h, List.takeD_eq_take _ (Nat.le_refl _), List.take_length]

/-- Sanity check for the non-rotation append path: the first append on
`exStore` lands in the current volume, commits its metadata, and the
returned address reads back the payload byte-for-byte. -/
theorem append_first_attempt_roundtrip :
    exStore1.read_block (make_logic 0 1) =
      (Status.success, some { addr_ := make_logic 0 1, data_ := exD1 }) := by
  have h : List.takeD AKU_BLOCK_SIZE exD1 0 = exD1 := takeD_self _ (by simp [exD1])
  calc exStore1.read_block (make_logic 0 1)
      = (Status.success,
          some { addr_ := make_logic 0 1, data_ := List.takeD AKU_BLOCK_SIZE exD1 0 }) := rfl
    _ = (Status.success, some { addr_ := make_logic 0 1, data_ := exD1 }) := by rw [h]

end Akumuli
